import Mathlib

/-!
# Verification of the home-canvas placement engine and history model

A shallow embedding of the coordinate mapper, placement session and
undo/redo history of the home-canvas application, together with proofs of
the specified properties.  Pixel coordinates and percentages are modelled
as exact rationals (`ℚ`); scene images (JS `File` values) are modelled as
opaque `String` payloads.
-/

set_option maxHeartbeats 1000000

namespace HomeCanvas

/-- A DOM bounding client rect, as produced by `getBoundingClientRect()`. -/
structure Rect where
  width : ℚ
  height : ℚ
  left : ℚ
  top : ℚ
  deriving DecidableEq, Repr

/-- The natural (intrinsic) dimensions of a loaded image element. -/
structure NaturalSize where
  naturalWidth : ℚ
  naturalHeight : ℚ
  deriving DecidableEq, Repr

/--
The shared click/drop placement handler of `ImageUploader`
(`handlePlacement`): maps a client-space point to the container-local point
and the image-relative percentages under an `object-contain` rendering, or
returns `none` when the point lands in the letterbox padding.  The returned
pair is the payload of the `onProductDrop` callback:
`((pointX, pointY), (xPercent, yPercent))`; `none` means the callback is
not invoked.
-/
def handlePlacement (containerRect : Rect) (img : NaturalSize)
    (clientX clientY : ℚ) : Option ((ℚ × ℚ) × (ℚ × ℚ)) :=
  let imageAspectRatio := img.naturalWidth / img.naturalHeight
  let containerAspectRatio := containerRect.width / containerRect.height
  let rendered : ℚ × ℚ :=
    if imageAspectRatio > containerAspectRatio then
      (containerRect.width, containerRect.width / imageAspectRatio)
    else
      (containerRect.height * imageAspectRatio, containerRect.height)
  let renderedWidth := rendered.1
  let renderedHeight := rendered.2
  let offsetX := (containerRect.width - renderedWidth) / 2
  let offsetY := (containerRect.height - renderedHeight) / 2
  let pointX := clientX - containerRect.left
  let pointY := clientY - containerRect.top
  let imageX := pointX - offsetX
  let imageY := pointY - offsetY
  if imageX < 0 ∨ imageX > renderedWidth ∨ imageY < 0 ∨ imageY > renderedHeight then
    none
  else
    some ((pointX, pointY), ((imageX / renderedWidth) * 100, (imageY / renderedHeight) * 100))

/--
Modelled from the spec (§4.1 Coordinate Mapper contract): compute the
aspect ratios, the contain-fit rendered size, the centering letterbox
offsets, translate the point to container-local coordinates, subtract the
offsets, fail with `OutOfBounds` (`none`) outside
`[0, renderedWidth] × [0, renderedHeight]`, and otherwise return
`(imageX/renderedWidth*100, imageY/renderedHeight*100)`.  This definition
follows the spec's words; the code-side definition is `handlePlacement`.
-/
def mapToImageSpace (containerBox : Rect) (imageNatural : NaturalSize)
    (clientX clientY : ℚ) : Option (ℚ × ℚ) :=
  let imageAspect := imageNatural.naturalWidth / imageNatural.naturalHeight
  let containerAspect := containerBox.width / containerBox.height
  let rendered : ℚ × ℚ :=
    if imageAspect > containerAspect then
      (containerBox.width, containerBox.width / imageAspect)
    else
      (containerBox.height * imageAspect, containerBox.height)
  let offsetX := (containerBox.width - rendered.1) / 2
  let offsetY := (containerBox.height - rendered.2) / 2
  let imageX := (clientX - containerBox.left) - offsetX
  let imageY := (clientY - containerBox.top) - offsetY
  if imageX < 0 ∨ imageX > rendered.1 ∨ imageY < 0 ∨ imageY > rendered.2 then
    none
  else
    some ((imageX / rendered.1) * 100, (imageY / rendered.2) * 100)

/-- The contain-fit rendered dimensions computed by `handlePlacement`. -/
def renderedDims (containerRect : Rect) (img : NaturalSize) : ℚ × ℚ :=
  if img.naturalWidth / img.naturalHeight > containerRect.width / containerRect.height then
    (containerRect.width, containerRect.width / (img.naturalWidth / img.naturalHeight))
  else
    (containerRect.height * (img.naturalWidth / img.naturalHeight), containerRect.height)

/-- The image-local coordinates of a client point computed by `handlePlacement`. -/
def imageLocal (containerRect : Rect) (img : NaturalSize) (clientX clientY : ℚ) : ℚ × ℚ :=
  ((clientX - containerRect.left) - (containerRect.width - (renderedDims containerRect img).1) / 2,
   (clientY - containerRect.top) - (containerRect.height - (renderedDims containerRect img).2) / 2)

theorem handlePlacement_eq (containerRect : Rect) (img : NaturalSize) (clientX clientY : ℚ) :
    handlePlacement containerRect img clientX clientY =
      (if (imageLocal containerRect img clientX clientY).1 < 0 ∨
          (imageLocal containerRect img clientX clientY).1 > (renderedDims containerRect img).1 ∨
          (imageLocal containerRect img clientX clientY).2 < 0 ∨
          (imageLocal containerRect img clientX clientY).2 > (renderedDims containerRect img).2 then
        none
      else
        some ((clientX - containerRect.left, clientY - containerRect.top),
              ((imageLocal containerRect img clientX clientY).1 / (renderedDims containerRect img).1 * 100,
               (imageLocal containerRect img clientX clientY).2 / (renderedDims containerRect img).2 * 100))) := by
  simp only [handlePlacement, imageLocal, renderedDims]

/--
C1: For every container box, natural image size and pointer point, the
coordinate mapper of the code (`handlePlacement`) computes exactly the
contain-fit mapping described by the spec (`mapToImageSpace`): the
rendered dimensions, the half-leftover letterbox offsets, and for
in-bounds points the percentages `(imageX/renderedWidth*100,
imageY/renderedHeight*100)`.  In particular, for an 800×400 container and
a 900×900 image, point (200,0) maps to (0%,0%) and point (150,0) is
rejected as out of bounds; for an 800×450 container and a 1600×900 image,
point (400,225) maps to (50%,50%).
-/
theorem coordinate_mapper_matches_spec :
    (∀ (containerRect : Rect) (img : NaturalSize) (clientX clientY : ℚ),
        (handlePlacement containerRect img clientX clientY).map Prod.snd =
          mapToImageSpace containerRect img clientX clientY) ∧
    handlePlacement ⟨800, 400, 0, 0⟩ ⟨900, 900⟩ 200 0 = some ((200, 0), (0, 0)) ∧
    handlePlacement ⟨800, 400, 0, 0⟩ ⟨900, 900⟩ 150 0 = none ∧
    handlePlacement ⟨800, 450, 0, 0⟩ ⟨1600, 900⟩ 400 225 = some ((400, 225), (50, 50)) := by
  refine ⟨fun containerRect img clientX clientY => ?_, ?_, ?_, ?_⟩
  · simp only [handlePlacement, mapToImageSpace]
    split <;> split <;> simp
  · norm_num [handlePlacement]
  · norm_num [handlePlacement]
  · norm_num [handlePlacement]

theorem renderedDims_pos (containerRect : Rect) (img : NaturalSize)
    (hw : 0 < containerRect.width) (hh : 0 < containerRect.height)
    (hnw : 0 < img.naturalWidth) (hnh : 0 < img.naturalHeight) :
    0 < (renderedDims containerRect img).1 ∧ 0 < (renderedDims containerRect img).2 := by
  unfold renderedDims
  have haspect : 0 < img.naturalWidth / img.naturalHeight := div_pos hnw hnh
  split
  · exact ⟨hw, div_pos hw haspect⟩
  · exact ⟨mul_pos hh haspect, hh⟩

/--
C7: For every valid container box, natural image size and point: if the
image-local coordinates lie in `[0, renderedWidth] × [0, renderedHeight]`
(boundary included) the mapper returns percentages in `[0,100] × [0,100]`;
if either image-local coordinate falls outside that range the mapper
returns `none` (out of bounds) and produces no placement.
-/
theorem mapper_percent_bounds (containerRect : Rect) (img : NaturalSize)
    (clientX clientY : ℚ)
    (hw : 0 < containerRect.width) (hh : 0 < containerRect.height)
    (hnw : 0 < img.naturalWidth) (hnh : 0 < img.naturalHeight) :
    (0 ≤ (imageLocal containerRect img clientX clientY).1 ∧
     (imageLocal containerRect img clientX clientY).1 ≤ (renderedDims containerRect img).1 ∧
     0 ≤ (imageLocal containerRect img clientX clientY).2 ∧
     (imageLocal containerRect img clientX clientY).2 ≤ (renderedDims containerRect img).2 →
       ∃ point pct, handlePlacement containerRect img clientX clientY = some (point, pct) ∧
         0 ≤ pct.1 ∧ pct.1 ≤ 100 ∧ 0 ≤ pct.2 ∧ pct.2 ≤ 100) ∧
    ((imageLocal containerRect img clientX clientY).1 < 0 ∨
     (renderedDims containerRect img).1 < (imageLocal containerRect img clientX clientY).1 ∨
     (imageLocal containerRect img clientX clientY).2 < 0 ∨
     (renderedDims containerRect img).2 < (imageLocal containerRect img clientX clientY).2 →
       handlePlacement containerRect img clientX clientY = none) := by
  obtain ⟨hrw, hrh⟩ := renderedDims_pos containerRect img hw hh hnw hnh
  rw [handlePlacement_eq]
  constructor
  · rintro ⟨h1, h2, h3, h4⟩
    rw [if_neg (by push_neg; exact ⟨h1, h2, h3, h4⟩)]
    refine ⟨_, _, rfl, ?_, ?_, ?_, ?_⟩
    · exact mul_nonneg (div_nonneg h1 hrw.le) (by norm_num)
    · have hx : (imageLocal containerRect img clientX clientY).1 /
          (renderedDims containerRect img).1 ≤ 1 := (div_le_one hrw).mpr h2
      nlinarith
    · exact mul_nonneg (div_nonneg h3 hrh.le) (by norm_num)
    · have hy : (imageLocal containerRect img clientX clientY).2 /
          (renderedDims containerRect img).2 ≤ 1 := (div_le_one hrh).mpr h4
      nlinarith
  · intro h
    rw [if_pos]
    rcases h with h | h | h | h
    · exact Or.inl h
    · exact Or.inr (Or.inl h)
    · exact Or.inr (Or.inr (Or.inl h))
    · exact Or.inr (Or.inr (Or.inr h))

theorem mapper_percent_bounds_witness :
    ((0:ℚ) ≤ 200 ∧ (200:ℚ) ≤ 400) ∧
    ∃ point pct, handlePlacement ⟨800, 400, 0, 0⟩ ⟨900, 900⟩ 200 0 = some (point, pct) ∧
      0 ≤ pct.1 ∧ pct.1 ≤ 100 ∧ 0 ≤ pct.2 ∧ pct.2 ≤ 100 :=
  ⟨⟨by norm_num, by norm_num⟩,
   (mapper_percent_bounds ⟨800, 400, 0, 0⟩ ⟨900, 900⟩ 200 0
      (by norm_num) (by norm_num) (by norm_num) (by norm_num)).1
      (by norm_num [imageLocal, renderedDims])⟩

/-! ## The application state and its operations (App component) -/

/-- The payload of the placement context menu (`placementContextMenu` state). -/
structure PlacementMenuState where
  screenX : ℚ
  screenY : ℚ
  containerX : ℚ
  containerY : ℚ
  relativeX : ℚ
  relativeY : ℚ
  deriving DecidableEq, Repr

/-- The kind of a surface modification (`'color' | 'texture'`). -/
inductive SurfaceKind where
  | color
  | texture
  deriving DecidableEq, Repr

/-- The pending surface-modification request (`surfaceModificationState`). -/
structure SurfaceModState where
  type : SurfaceKind
  xPercent : ℚ
  yPercent : ℚ
  deriving DecidableEq, Repr

/-- The result object of `generateCompositeImage`. -/
structure GenOut where
  finalImageUrl : String
  debugImageUrl : String
  finalPrompt : String
  deriving DecidableEq, Repr

/--
The App component's state relevant to placement and history.  Scene images
(`File` values) are modelled as `String` payloads; `undoHistoryRef` /
`redoHistoryRef` hold past / future scenes most-recent-last, matching the
JS arrays where `push`/`pop` act on the end and `shift` removes index 0.
-/
structure AppState where
  products : List Nat
  productFiles : List (Nat × String)
  activeProductId : Option Nat
  sceneImage : Option String
  isLoading : Bool
  error : Option String
  persistedOrbPosition : Option (ℚ × ℚ)
  debugImageUrl : Option String
  debugPrompt : Option String
  sceneDesignPrompt : String
  placementContextMenu : Option PlacementMenuState
  surfaceModificationState : Option SurfaceModState
  isTouchDragging : Bool
  touchGhostPosition : Option (ℚ × ℚ)
  isHoveringDropZone : Bool
  touchOrbPosition : Option (ℚ × ℚ)
  undoHistory : List String
  redoHistory : List String
  canUndo : Bool
  canRedo : Bool
  deriving DecidableEq, Repr

/-- The initial App state (all `useState`/`useRef` initialisers). -/
def initialState : AppState where
  products := []
  productFiles := []
  activeProductId := none
  sceneImage := none
  isLoading := false
  error := none
  persistedOrbPosition := none
  debugImageUrl := none
  debugPrompt := none
  sceneDesignPrompt := ""
  placementContextMenu := none
  surfaceModificationState := none
  isTouchDragging := false
  touchGhostPosition := none
  isHoveringDropZone := false
  touchOrbPosition := none
  undoHistory := []
  redoHistory := []
  canUndo := false
  canRedo := false

/--
The history-push block shared by the three mutation handlers:
`undoHistoryRef.current.push(previousScene); if (length > 10)
undoHistoryRef.current.shift()`.
-/
def capPush (l : List String) (x : String) : List String :=
  if (l ++ [x]).length > 10 then (l ++ [x]).drop 1 else l ++ [x]

/--
The check `prompt.trim()` is the empty string exactly when every character of the
prompt is whitespace; this models the falsiness check
`!sceneDesignPrompt.trim()`.
-/
def trimEmpty (s : String) : Bool := s.data.all Char.isWhitespace

/--
Handler `handleProductDrop`: the place-product submission.  The outcome of the
external `generateCompositeImage` call is passed in as `gen`; the returned
`Bool` records whether the external generator was invoked.
-/
def handleProductDrop (s : AppState) (position : ℚ × ℚ)
    (gen : Except String GenOut) : AppState × Bool :=
  let currentActiveProduct := s.activeProductId.bind fun pid =>
    if s.products.contains pid then some pid else none
  let currentActiveProductFile := s.activeProductId.bind fun pid =>
    s.productFiles.lookup pid
  match currentActiveProductFile, s.sceneImage, currentActiveProduct with
  | some _, some previousScene, some _ =>
    match gen with
    | .ok out =>
      ({ s with error := none
                debugImageUrl := some out.debugImageUrl
                debugPrompt := some out.finalPrompt
                sceneImage := some out.finalImageUrl
                undoHistory := capPush s.undoHistory previousScene
                redoHistory := []
                canUndo := true
                canRedo := false
                isLoading := false
                persistedOrbPosition := none }, true)
    | .error msg =>
      ({ s with error := some ("Failed to generate the image. " ++ msg)
                isLoading := false
                persistedOrbPosition := none }, true)
  | _, _, _ => ({ s with error := some "Please select a product before placing it." }, false)

/--
Handler `handleSceneDesignGeneration`: the redesign-scene submission.  The outcome
of the external `generateInteriorDesign` call is passed in as `gen`.
-/
def handleSceneDesignGeneration (s : AppState)
    (gen : Except String String) : AppState × Bool :=
  match s.sceneImage with
  | none => ({ s with error := some "Please provide a scene image and a design instruction." }, false)
  | some previousScene =>
    if trimEmpty s.sceneDesignPrompt then
      ({ s with error := some "Please provide a scene image and a design instruction." }, false)
    else
      match gen with
      | .ok generatedImageUrl =>
        ({ s with error := none
                  persistedOrbPosition := none
                  sceneImage := some generatedImageUrl
                  undoHistory := capPush s.undoHistory previousScene
                  redoHistory := []
                  canUndo := true
                  canRedo := false
                  sceneDesignPrompt := ""
                  isLoading := false }, true)
      | .error msg =>
        ({ s with error := some ("Failed to generate the design. " ++ msg)
                  persistedOrbPosition := none
                  isLoading := false }, true)

/--
Handler `handleSurfaceModificationSubmit`: the modify-surface submission.  The
outcome of the external `modifySurface` call is passed in as `gen`.
-/
def handleSurfaceModificationSubmit (s : AppState) (modificationValue : String)
    (gen : Except String String) : AppState × Bool :=
  match s.surfaceModificationState, s.sceneImage with
  | some _, some previousScene =>
    match gen with
    | .ok generatedImageUrl =>
      ({ s with surfaceModificationState := none
                error := none
                persistedOrbPosition := none
                sceneImage := some generatedImageUrl
                undoHistory := capPush s.undoHistory previousScene
                redoHistory := []
                canUndo := true
                canRedo := false
                isLoading := false }, true)
    | .error msg =>
      ({ s with surfaceModificationState := none
                error := some ("Failed to modify the surface. " ++ msg)
                persistedOrbPosition := none
                isLoading := false }, true)
  | _, _ => (s, false)

/-- Handler `handleUndo`: pop the undo stack onto the scene, pushing the scene onto redo. -/
def handleUndo (s : AppState) : AppState :=
  if s.undoHistory.length = 0 ∨ s.sceneImage = none then s
  else
    let rest := s.undoHistory.dropLast
    let s' :=
      match s.undoHistory.getLast?, s.sceneImage with
      | some previousScene, some scene =>
        { s with undoHistory := rest
                 redoHistory := s.redoHistory ++ [scene]
                 sceneImage := some previousScene }
      | _, _ => { s with undoHistory := rest }
    { s' with canUndo := decide (rest.length > 0), canRedo := true }

/-- Handler `handleRedo`: pop the redo stack onto the scene, pushing the scene onto undo. -/
def handleRedo (s : AppState) : AppState :=
  if s.redoHistory.length = 0 ∨ s.sceneImage = none then s
  else
    let rest := s.redoHistory.dropLast
    let s' :=
      match s.redoHistory.getLast?, s.sceneImage with
      | some nextScene, some scene =>
        { s with redoHistory := rest
                 undoHistory := s.undoHistory ++ [scene]
                 sceneImage := some nextScene }
      | _, _ => { s with redoHistory := rest }
    { s' with canRedo := decide (rest.length > 0), canUndo := true }

/-- Handler `handleReset`: the full application reset (Start Over). -/
def handleReset (s : AppState) : AppState :=
  { s with products := []
           productFiles := []
           activeProductId := none
           sceneImage := none
           error := none
           isLoading := false
           persistedOrbPosition := none
           debugImageUrl := none
           debugPrompt := none
           sceneDesignPrompt := ""
           placementContextMenu := none
           surfaceModificationState := none
           undoHistory := []
           redoHistory := []
           canUndo := false
           canRedo := false }

/-- Handler `handleChangeScene`: clearing the scene, which resets the history. -/
def handleChangeScene (s : AppState) : AppState :=
  { s with sceneImage := none
           persistedOrbPosition := none
           debugImageUrl := none
           debugPrompt := none
           sceneDesignPrompt := ""
           placementContextMenu := none
           surfaceModificationState := none
           undoHistory := []
           redoHistory := []
           canUndo := false
           canRedo := false }

/--
Handler `handlePlacementRequest`: raise the placement context menu and the visual
marker for an in-bounds drop; ignored while a generation is in flight.
-/
def handlePlacementRequest (s : AppState)
    (clientX clientY containerX containerY xPercent yPercent : ℚ) : AppState :=
  if s.isLoading then s
  else
    { s with placementContextMenu := some
               { screenX := clientX, screenY := clientY
                 containerX := containerX, containerY := containerY
                 relativeX := xPercent, relativeY := yPercent }
             persistedOrbPosition := some (containerX, containerY) }

/--
Handler `handleTouchEnd`: the touch-drag drop path.  `dropZone` is `some (rect,
img)` when the touch ended over the scene drop zone with a loaded scene
image (`elementFromPoint`/`closest` and `sceneImgRef.current`), carrying
the container's bounding rect and the image's natural size.
-/
def handleTouchEnd (s : AppState) (dropZone : Option (Rect × NaturalSize))
    (clientX clientY : ℚ) : AppState :=
  if ¬ s.isTouchDragging then s
  else
    let s' :=
      match dropZone with
      | some (containerRect, img) =>
        let imageAspectRatio := img.naturalWidth / img.naturalHeight
        let containerAspectRatio := containerRect.width / containerRect.height
        let rendered : ℚ × ℚ :=
          if imageAspectRatio > containerAspectRatio then
            (containerRect.width, containerRect.width / imageAspectRatio)
          else
            (containerRect.height * imageAspectRatio, containerRect.height)
        let offsetX := (containerRect.width - rendered.1) / 2
        let offsetY := (containerRect.height - rendered.2) / 2
        let dropX := clientX - containerRect.left
        let dropY := clientY - containerRect.top
        let imageX := dropX - offsetX
        let imageY := dropY - offsetY
        if ¬ (imageX < 0 ∨ imageX > rendered.1 ∨ imageY < 0 ∨ imageY > rendered.2) then
          handlePlacementRequest s clientX clientY dropX dropY
            ((imageX / rendered.1) * 100) ((imageY / rendered.2) * 100)
        else s
      | none => s
    { s' with isTouchDragging := false
              touchGhostPosition := none
              isHoveringDropZone := false
              touchOrbPosition := none }

/--
The localStorage restore effect run on mount: install the saved scene and
the saved history stacks, setting the availability flags only for
non-empty stacks.  (Product restoration does not touch the history state
and is omitted.)
-/
def loadSavedState (s : AppState) (scene : Option String)
    (undoHistory redoHistory : List String) : AppState :=
  let s1 :=
    match scene with
    | some sceneFile => { s with sceneImage := some sceneFile }
    | none => s
  let s2 :=
    if undoHistory.length > 0 then
      { s1 with undoHistory := undoHistory, canUndo := true }
    else s1
  if redoHistory.length > 0 then
    { s2 with redoHistory := redoHistory, canRedo := true }
  else s2

/-- One user-level operation on the App state. -/
inductive Op where
  | productDrop (position : ℚ × ℚ) (gen : Except String GenOut)
  | sceneDesign (gen : Except String String)
  | surfaceMod (value : String) (gen : Except String String)
  | undo
  | redo
  | reset
  | changeScene
  | placementRequest (clientX clientY containerX containerY xPercent yPercent : ℚ)
  | touchEnd (dropZone : Option (Rect × NaturalSize)) (clientX clientY : ℚ)

/-- Apply one operation to the App state. -/
def Op.apply (op : Op) (s : AppState) : AppState :=
  match op with
  | .productDrop position gen => (handleProductDrop s position gen).1
  | .sceneDesign gen => (handleSceneDesignGeneration s gen).1
  | .surfaceMod v gen => (handleSurfaceModificationSubmit s v gen).1
  | .undo => handleUndo s
  | .redo => handleRedo s
  | .reset => handleReset s
  | .changeScene => handleChangeScene s
  | .placementRequest a b c d e f => handlePlacementRequest s a b c d e f
  | .touchEnd dz x y => handleTouchEnd s dz x y

/-- Run a sequence of operations from the initial state. -/
def runOps (ops : List Op) : AppState :=
  ops.foldl (fun s op => op.apply s) initialState

/-! ## Helper lemmas about the history push and the undo/redo pops -/

theorem capPush_ne_nil (l : List String) (x : String) : capPush l x ≠ [] := by
  unfold capPush
  split
  · rename_i h
    simp only [List.length_append, List.length_singleton] at h
    obtain ⟨a, t, rfl⟩ : ∃ a t, l = a :: t := by
      cases l with
      | nil => simp at h
      | cons a t => exact ⟨a, t, rfl⟩
    simp
  · simp

theorem capPush_getLast? (l : List String) (x : String) :
    (capPush l x).getLast? = some x := by
  unfold capPush
  split
  · rename_i h
    simp only [List.length_append, List.length_singleton] at h
    obtain ⟨a, t, rfl⟩ : ∃ a t, l = a :: t := by
      cases l with
      | nil => simp at h
      | cons a t => exact ⟨a, t, rfl⟩
    simp [List.getLast?_concat]
  · exact List.getLast?_concat l

theorem capPush_length_le (l : List String) (x : String) (h : l.length ≤ 10) :
    (capPush l x).length ≤ 10 := by
  unfold capPush
  split
  · rename_i hgt
    simp only [List.length_append, List.length_singleton] at hgt ⊢
    simp only [List.length_drop, List.length_append, List.length_singleton]
    omega
  · rename_i hle
    simp only [List.length_append, List.length_singleton, gt_iff_lt, not_lt] at hle ⊢
    omega

theorem dropLast_capPush (l : List String) (x : String) :
    (capPush l x).dropLast = if l.length + 1 > 10 then l.tail else l := by
  unfold capPush
  split
  · rename_i h
    simp only [List.length_append, List.length_singleton] at h
    rw [if_pos h]
    obtain ⟨a, t, rfl⟩ : ∃ a t, l = a :: t := by
      cases l with
      | nil => simp at h
      | cons a t => exact ⟨a, t, rfl⟩
    simp [List.dropLast_concat]
  · rename_i h
    simp only [List.length_append, List.length_singleton] at h
    rw [if_neg h]
    exact List.dropLast_concat ..

theorem getLast?_tail (l : List String) (h : 2 ≤ l.length) :
    l.tail.getLast? = l.getLast? := by
  match l, h with
  | a :: b :: t, _ => simp [List.getLast?_cons_cons]

theorem getLast?_dropLast_capPush (l : List String) (x y : String)
    (hy : l.getLast? = some y) :
    (capPush l x).dropLast.getLast? = some y := by
  rw [dropLast_capPush]
  split
  · rename_i h
    rw [getLast?_tail l (by omega)]
    exact hy
  · exact hy

theorem dropLast_capPush_ne_nil (l : List String) (x : String) (h : l ≠ []) :
    (capPush l x).dropLast ≠ [] := by
  rw [dropLast_capPush]
  split
  · rename_i hlen
    have : l.tail.length = l.length - 1 := List.length_tail l
    intro hnil
    rw [hnil] at this
    simp at this
    omega
  · exact h

/-- Characterisation of `handleUndo` when it acts. -/
theorem handleUndo_spec (s : AppState) (prev scene : String)
    (hprev : s.undoHistory.getLast? = some prev)
    (hscene : s.sceneImage = some scene) :
    handleUndo s =
      { s with undoHistory := s.undoHistory.dropLast
               redoHistory := s.redoHistory ++ [scene]
               sceneImage := some prev
               canUndo := decide (s.undoHistory.dropLast.length > 0)
               canRedo := true } := by
  have hne : s.undoHistory ≠ [] := by
    intro hnil
    rw [hnil] at hprev
    simp at hprev
  unfold handleUndo
  rw [if_neg (by simp [hscene, List.length_eq_zero, hne])]
  rw [hprev, hscene]

/-- Characterisation of `handleRedo` when it acts. -/
theorem handleRedo_spec (s : AppState) (next scene : String)
    (hnext : s.redoHistory.getLast? = some next)
    (hscene : s.sceneImage = some scene) :
    handleRedo s =
      { s with redoHistory := s.redoHistory.dropLast
               undoHistory := s.undoHistory ++ [scene]
               sceneImage := some next
               canRedo := decide (s.redoHistory.dropLast.length > 0)
               canUndo := true } := by
  have hne : s.redoHistory ≠ [] := by
    intro hnil
    rw [hnil] at hnext
    simp at hnext
  unfold handleRedo
  rw [if_neg (by simp [hscene, List.length_eq_zero, hne])]
  rw [hnext, hscene]

/-- The placement-request path does not touch the undo stack. -/
theorem handlePlacementRequest_undoHistory (s : AppState) (a b c d e f : ℚ) :
    (handlePlacementRequest s a b c d e f).undoHistory = s.undoHistory := by
  unfold handlePlacementRequest
  split <;> rfl

/-- The placement-request path does not touch the redo stack. -/
theorem handlePlacementRequest_redoHistory (s : AppState) (a b c d e f : ℚ) :
    (handlePlacementRequest s a b c d e f).redoHistory = s.redoHistory := by
  unfold handlePlacementRequest
  split <;> rfl

/-- The touch-drop path does not touch the undo stack. -/
theorem handleTouchEnd_undoHistory (s : AppState) (dz : Option (Rect × NaturalSize)) (x y : ℚ) :
    (handleTouchEnd s dz x y).undoHistory = s.undoHistory := by
  simp only [handleTouchEnd]
  repeat' split
  all_goals simp [handlePlacementRequest_undoHistory]

/-- The touch-drop path does not touch the redo stack. -/
theorem handleTouchEnd_redoHistory (s : AppState) (dz : Option (Rect × NaturalSize)) (x y : ℚ) :
    (handleTouchEnd s dz x y).redoHistory = s.redoHistory := by
  simp only [handleTouchEnd]
  repeat' split
  all_goals simp [handlePlacementRequest_redoHistory]

/-- The bounded-memory invariant: at most 10 snapshots across both stacks. -/
def histInv (s : AppState) : Prop :=
  s.undoHistory.length + s.redoHistory.length ≤ 10

theorem histInv_apply (op : Op) (s : AppState) (h : histInv s) :
    histInv (op.apply s) := by
  unfold histInv at h ⊢
  have hu : s.undoHistory.length ≤ 10 := by omega
  cases op with
  | productDrop position gen =>
    simp only [Op.apply, handleProductDrop]
    split
    · split
      · simpa using capPush_length_le _ _ hu
      · simpa using h
    · simpa using h
  | sceneDesign gen =>
    simp only [Op.apply, handleSceneDesignGeneration]
    split
    · simpa using h
    · split
      · simpa using h
      · split
        · simpa using capPush_length_le _ _ hu
        · simpa using h
  | surfaceMod v gen =>
    simp only [Op.apply, handleSurfaceModificationSubmit]
    split
    · split
      · simpa using capPush_length_le _ _ hu
      · simpa using h
    · simpa using h
  | undo =>
    simp only [Op.apply, handleUndo]
    split
    · exact h
    · rename_i hguard
      push_neg at hguard
      split <;> simp [List.length_dropLast] <;> omega
  | redo =>
    simp only [Op.apply, handleRedo]
    split
    · exact h
    · rename_i hguard
      push_neg at hguard
      split <;> simp [List.length_dropLast] <;> omega
  | reset => simp [Op.apply, handleReset]
  | changeScene => simp [Op.apply, handleChangeScene]
  | placementRequest a b c d e f =>
    simp only [Op.apply, handlePlacementRequest]
    split <;> simpa using h
  | touchEnd dz x y =>
    simpa only [Op.apply, handleTouchEnd_undoHistory, handleTouchEnd_redoHistory] using h

theorem histInv_runOps (ops : List Op) : histInv (runOps ops) := by
  unfold runOps
  induction ops using List.reverseRecOn with
  | nil => simp [histInv, initialState]
  | append_singleton ops op ih =>
    rw [List.foldl_append]
    exact histInv_apply op _ ih

/--
C2: Along every sequence of operations from the initial state, the undo
stack never holds more than 10 entries; and a successful commit
(`handleProductDrop` with a selected product and a scene) performed when
the undo stack already holds 10 entries removes the oldest (bottom) entry
and retains the new one at the top (FIFO eviction).
-/
theorem undo_stack_capacity :
    (∀ ops : List Op, (runOps ops).undoHistory.length ≤ 10) ∧
    (∀ (s : AppState) (position : ℚ × ℚ) (out : GenOut) (pid : Nat) (file scene : String),
      s.activeProductId = some pid →
      s.products.contains pid = true →
      s.productFiles.lookup pid = some file →
      s.sceneImage = some scene →
      s.undoHistory.length = 10 →
      (handleProductDrop s position (Except.ok out)).1.undoHistory =
        s.undoHistory.tail ++ [scene]) := by
  constructor
  · intro ops
    have := histInv_runOps ops
    unfold histInv at this
    omega
  · intro s position out pid file scene hactive hcontains hlookup hscene hlen
    obtain ⟨a, t, hl⟩ : ∃ a t, s.undoHistory = a :: t := by
      cases hu : s.undoHistory with
      | nil => rw [hu] at hlen; simp at hlen
      | cons a t => exact ⟨a, t, rfl⟩
    simp only [handleProductDrop, hactive, hcontains, hlookup, hscene,
      Option.some_bind, eq_self_iff_true, if_true]
    rw [hl]
    have h11 : ((a :: t) ++ [scene]).length > 10 := by
      have ht : (a :: t).length = 10 := hl ▸ hlen
      simp only [List.length_append, List.length_singleton, ht]
      omega
    unfold capPush
    rw [if_pos h11]
    simp

theorem undo_stack_capacity_witness :
    (runOps [Op.reset]).undoHistory.length ≤ 10 ∧
    (handleProductDrop
        { initialState with
            products := [1]
            productFiles := [(1, "productFile")]
            activeProductId := some 1
            sceneImage := some "s0"
            undoHistory := ["a", "b", "c", "d", "e", "f", "g", "h", "i", "j"] }
        (0, 0) (Except.ok ⟨"new", "dbg", "prompt"⟩)).1.undoHistory =
      ["a", "b", "c", "d", "e", "f", "g", "h", "i", "j"].tail ++ ["s0"] :=
  ⟨undo_stack_capacity.1 [Op.reset],
   undo_stack_capacity.2
      { initialState with
          products := [1]
          productFiles := [(1, "productFile")]
          activeProductId := some 1
          sceneImage := some "s0"
          undoHistory := ["a", "b", "c", "d", "e", "f", "g", "h", "i", "j"] }
      (0, 0) ⟨"new", "dbg", "prompt"⟩ 1 "productFile" "s0"
      rfl rfl rfl rfl rfl⟩

/-- Characterisation of a successful place-product commit. -/
theorem handleProductDrop_ok (s : AppState) (position : ℚ × ℚ) (out : GenOut)
    (pid : Nat) (file prev : String)
    (hactive : s.activeProductId = some pid)
    (hcontains : s.products.contains pid = true)
    (hlookup : s.productFiles.lookup pid = some file)
    (hscene : s.sceneImage = some prev) :
    handleProductDrop s position (Except.ok out) =
      ({ s with error := none
                debugImageUrl := some out.debugImageUrl
                debugPrompt := some out.finalPrompt
                sceneImage := some out.finalImageUrl
                undoHistory := capPush s.undoHistory prev
                redoHistory := []
                canUndo := true
                canRedo := false
                isLoading := false
                persistedOrbPosition := none }, true) := by
  simp only [handleProductDrop, hactive, hcontains, hlookup, hscene, Option.some_bind,
    eq_self_iff_true, if_true]

/-- Two undos restore the next-to-top entry of the undo stack as the scene. -/
theorem undo_undo_sceneImage (s : AppState) (x1 x2 y : String)
    (h1 : s.undoHistory.getLast? = some x1)
    (h2 : s.undoHistory.dropLast.getLast? = some y)
    (hs : s.sceneImage = some x2) :
    (handleUndo (handleUndo s)).sceneImage = some y := by
  rw [handleUndo_spec s x1 x2 h1 hs]
  rw [handleUndo_spec _ y x1 (by simpa using h2) rfl]

/--
C6: Round-trip of history — starting from a state whose current scene is
`S0` with at most 10 prior commits (a selected product with its file and a
loaded scene), performing `commit(S1)`, `commit(S2)` (two successful
place-product generations), then `undo()`, `undo()` leaves the current
scene equal to `S0`.
-/
theorem history_round_trip (s : AppState) (position1 position2 : ℚ × ℚ)
    (out1 out2 : GenOut) (pid : Nat) (file S0 : String)
    (hactive : s.activeProductId = some pid)
    (hcontains : s.products.contains pid = true)
    (hlookup : s.productFiles.lookup pid = some file)
    (hscene : s.sceneImage = some S0)
    (hlen : s.undoHistory.length ≤ 10) :
    (handleUndo (handleUndo
        (handleProductDrop
          (handleProductDrop s position1 (Except.ok out1)).1
          position2 (Except.ok out2)).1)).sceneImage = some S0 := by
  rw [handleProductDrop_ok s position1 out1 pid file S0 hactive hcontains hlookup hscene]
  rw [handleProductDrop_ok _ position2 out2 pid file out1.finalImageUrl
    (by simpa using hactive) (by simpa using hcontains) (by simpa using hlookup) rfl]
  refine undo_undo_sceneImage _ out1.finalImageUrl out2.finalImageUrl S0 ?_ ?_ rfl
  · simpa using capPush_getLast? (capPush s.undoHistory S0) out1.finalImageUrl
  · simpa using
      getLast?_dropLast_capPush (capPush s.undoHistory S0) out1.finalImageUrl S0
        (capPush_getLast? s.undoHistory S0)

theorem history_round_trip_witness :
    (handleUndo (handleUndo
        (handleProductDrop
          (handleProductDrop
            { initialState with
                products := [1]
                productFiles := [(1, "productFile")]
                activeProductId := some 1
                sceneImage := some "S0" }
            (0, 0) (Except.ok ⟨"S1", "d1", "p1"⟩)).1
          (0, 0) (Except.ok ⟨"S2", "d2", "p2"⟩)).1)).sceneImage = some "S0" :=
  history_round_trip
    { initialState with
        products := [1]
        productFiles := [(1, "productFile")]
        activeProductId := some 1
        sceneImage := some "S0" }
    (0, 0) (0, 0) ⟨"S1", "d1", "p1"⟩ ⟨"S2", "d2", "p2"⟩ 1 "productFile" "S0"
    rfl rfl rfl rfl (by simp [initialState])

/--
C5: For every submit call whose external generation call fails — for each
of the three mutation kinds — the current scene and both history stacks
are exactly their pre-submit values (atomicity on error): no history push
occurs, and an error carrying the upstream message is surfaced.  The
returned flag witnesses that the generator was invoked.
-/
theorem submit_failure_atomic (s : AppState) (position : ℚ × ℚ) (msg value : String)
    (pid : Nat) (file scene : String) (m : SurfaceModState)
    (hactive : s.activeProductId = some pid)
    (hcontains : s.products.contains pid = true)
    (hlookup : s.productFiles.lookup pid = some file)
    (hscene : s.sceneImage = some scene)
    (hprompt : trimEmpty s.sceneDesignPrompt = false)
    (hmod : s.surfaceModificationState = some m) :
    ((handleProductDrop s position (Except.error msg)).1.sceneImage = s.sceneImage ∧
     (handleProductDrop s position (Except.error msg)).1.undoHistory = s.undoHistory ∧
     (handleProductDrop s position (Except.error msg)).1.redoHistory = s.redoHistory ∧
     (handleProductDrop s position (Except.error msg)).1.error =
       some ("Failed to generate the image. " ++ msg) ∧
     (handleProductDrop s position (Except.error msg)).2 = true) ∧
    ((handleSceneDesignGeneration s (Except.error msg)).1.sceneImage = s.sceneImage ∧
     (handleSceneDesignGeneration s (Except.error msg)).1.undoHistory = s.undoHistory ∧
     (handleSceneDesignGeneration s (Except.error msg)).1.redoHistory = s.redoHistory ∧
     (handleSceneDesignGeneration s (Except.error msg)).1.error =
       some ("Failed to generate the design. " ++ msg) ∧
     (handleSceneDesignGeneration s (Except.error msg)).2 = true) ∧
    ((handleSurfaceModificationSubmit s value (Except.error msg)).1.sceneImage = s.sceneImage ∧
     (handleSurfaceModificationSubmit s value (Except.error msg)).1.undoHistory = s.undoHistory ∧
     (handleSurfaceModificationSubmit s value (Except.error msg)).1.redoHistory = s.redoHistory ∧
     (handleSurfaceModificationSubmit s value (Except.error msg)).1.error =
       some ("Failed to modify the surface. " ++ msg) ∧
     (handleSurfaceModificationSubmit s value (Except.error msg)).2 = true) := by
  refine ⟨?_, ?_, ?_⟩
  · simp only [handleProductDrop, hactive, hcontains, hlookup, hscene, Option.some_bind,
      eq_self_iff_true, if_true]
    simp
  · simp only [handleSceneDesignGeneration, hscene, hprompt, Bool.false_eq_true, if_false]
    simp
  · simp only [handleSurfaceModificationSubmit, hmod, hscene]
    simp

theorem submit_failure_atomic_witness :
    (handleProductDrop
        { initialState with
            products := [1]
            productFiles := [(1, "productFile")]
            activeProductId := some 1
            sceneImage := some "scene"
            sceneDesignPrompt := "make it blue"
            surfaceModificationState := some ⟨SurfaceKind.color, 0, 0⟩ }
        (0, 0) (Except.error "boom")).1.sceneImage =
      ({ initialState with
            products := [1]
            productFiles := [(1, "productFile")]
            activeProductId := some 1
            sceneImage := some "scene"
            sceneDesignPrompt := "make it blue"
            surfaceModificationState := some ⟨SurfaceKind.color, 0, 0⟩ } : AppState).sceneImage :=
  ((submit_failure_atomic
      { initialState with
          products := [1]
          productFiles := [(1, "productFile")]
          activeProductId := some 1
          sceneImage := some "scene"
          sceneDesignPrompt := "make it blue"
          surfaceModificationState := some ⟨SurfaceKind.color, 0, 0⟩ }
      (0, 0) "boom" "beige" 1 "productFile" "scene" ⟨SurfaceKind.color, 0, 0⟩
      rfl rfl rfl rfl (by decide) rfl).1).1

/--
C9: Implicit precondition of undo and redo — both additionally require a
non-null current scene: when the current scene is `none`, `handleUndo` and
`handleRedo` return the state unchanged, even if the corresponding stack
is non-empty (such a state is reachable by restoring persisted history
that contains stack entries but no scene).
-/
theorem undo_redo_require_scene (s : AppState) (h : s.sceneImage = none) :
    handleUndo s = s ∧ handleRedo s = s := by
  constructor
  · unfold handleUndo
    rw [if_pos (Or.inr h)]
  · unfold handleRedo
    rw [if_pos (Or.inr h)]

theorem undo_redo_require_scene_witness :
    (loadSavedState initialState none ["entry"] []).sceneImage = none ∧
    (loadSavedState initialState none ["entry"] []).undoHistory ≠ [] ∧
    handleUndo (loadSavedState initialState none ["entry"] []) =
      loadSavedState initialState none ["entry"] [] ∧
    handleRedo (loadSavedState initialState none ["entry"] []) =
      loadSavedState initialState none ["entry"] [] :=
  ⟨rfl, by simp [loadSavedState, initialState],
   (undo_redo_require_scene (loadSavedState initialState none ["entry"] []) rfl).1,
   (undo_redo_require_scene (loadSavedState initialState none ["entry"] []) rfl).2⟩

/--
C3 counterexample: `handleReset` — an operation other than commit, undo
and redo — clears a non-empty redo stack, refuting "commit is the only
operation that empties the redo stack; no other operation clears it".
-/
theorem reset_clears_redo_counterexample :
    ({ initialState with redoHistory := ["future"], canRedo := true } : AppState).redoHistory ≠ [] ∧
    (handleReset { initialState with redoHistory := ["future"], canRedo := true }).redoHistory = [] :=
  ⟨by simp, rfl⟩

/--
C3 (amended): Every successful commit — of any of the three mutation
kinds — sets the redo stack to empty.  Undo and redo never clear the
opposite stack beyond their defined transfer: undo pushes exactly the
current scene onto the redo stack and pops one entry off the undo stack;
redo pushes exactly the current scene onto the undo stack and pops one
entry off the redo stack.  However, commit is not the only operation that
empties the redo stack: reset and change-scene (history-invalidating
actions) clear it as well.
-/
theorem commit_clears_redo_amended (s : AppState) (position : ℚ × ℚ)
    (out : GenOut) (genScene value : String)
    (pid : Nat) (file scene prev next : String) (m : SurfaceModState)
    (hactive : s.activeProductId = some pid)
    (hcontains : s.products.contains pid = true)
    (hlookup : s.productFiles.lookup pid = some file)
    (hscene : s.sceneImage = some scene)
    (hprompt : trimEmpty s.sceneDesignPrompt = false)
    (hmod : s.surfaceModificationState = some m)
    (hundo : s.undoHistory.getLast? = some prev)
    (hredo : s.redoHistory.getLast? = some next) :
    ((handleProductDrop s position (Except.ok out)).1.redoHistory = [] ∧
     (handleSceneDesignGeneration s (Except.ok genScene)).1.redoHistory = [] ∧
     (handleSurfaceModificationSubmit s value (Except.ok genScene)).1.redoHistory = []) ∧
    ((handleUndo s).redoHistory = s.redoHistory ++ [scene] ∧
     (handleUndo s).undoHistory = s.undoHistory.dropLast) ∧
    ((handleRedo s).undoHistory = s.undoHistory ++ [scene] ∧
     (handleRedo s).redoHistory = s.redoHistory.dropLast) ∧
    ((handleReset s).redoHistory = [] ∧ (handleChangeScene s).redoHistory = []) := by
  refine ⟨⟨?_, ?_, ?_⟩, ?_, ?_, rfl, rfl⟩
  · rw [handleProductDrop_ok s position out pid file scene hactive hcontains hlookup hscene]
  · simp only [handleSceneDesignGeneration, hscene, hprompt, Bool.false_eq_true, if_false]
  · simp only [handleSurfaceModificationSubmit, hmod, hscene]
  · rw [handleUndo_spec s prev scene hundo hscene]
    exact ⟨rfl, rfl⟩
  · rw [handleRedo_spec s next scene hredo hscene]
    exact ⟨rfl, rfl⟩

theorem commit_clears_redo_amended_witness :
    (handleProductDrop
        { initialState with
            products := [1]
            productFiles := [(1, "productFile")]
            activeProductId := some 1
            sceneImage := some "scene"
            sceneDesignPrompt := "prompt"
            surfaceModificationState := some ⟨SurfaceKind.texture, 1, 2⟩
            undoHistory := ["past"]
            redoHistory := ["future"]
            canUndo := true
            canRedo := true }
        (0, 0) (Except.ok ⟨"new", "dbg", "p"⟩)).1.redoHistory = [] ∧
    (handleUndo
        { initialState with
            products := [1]
            productFiles := [(1, "productFile")]
            activeProductId := some 1
            sceneImage := some "scene"
            sceneDesignPrompt := "prompt"
            surfaceModificationState := some ⟨SurfaceKind.texture, 1, 2⟩
            undoHistory := ["past"]
            redoHistory := ["future"]
            canUndo := true
            canRedo := true }).redoHistory = ["future"] ++ ["scene"] :=
  ⟨((commit_clears_redo_amended
      { initialState with
          products := [1]
          productFiles := [(1, "productFile")]
          activeProductId := some 1
          sceneImage := some "scene"
          sceneDesignPrompt := "prompt"
          surfaceModificationState := some ⟨SurfaceKind.texture, 1, 2⟩
          undoHistory := ["past"]
          redoHistory := ["future"]
          canUndo := true
          canRedo := true }
      (0, 0) ⟨"new", "dbg", "p"⟩ "gen" "oak" 1 "productFile" "scene" "past" "future"
      ⟨SurfaceKind.texture, 1, 2⟩ rfl rfl rfl rfl (by decide) rfl rfl rfl).1).1,
   ((commit_clears_redo_amended
      { initialState with
          products := [1]
          productFiles := [(1, "productFile")]
          activeProductId := some 1
          sceneImage := some "scene"
          sceneDesignPrompt := "prompt"
          surfaceModificationState := some ⟨SurfaceKind.texture, 1, 2⟩
          undoHistory := ["past"]
          redoHistory := ["future"]
          canUndo := true
          canRedo := true }
      (0, 0) ⟨"new", "dbg", "p"⟩ "gen" "oak" 1 "productFile" "scene" "past" "future"
      ⟨SurfaceKind.texture, 1, 2⟩ rfl rfl rfl rfl (by decide) rfl rfl rfl).2.1).1⟩

/--
C4 counterexample: in a state where a mutation is already in flight
(`isLoading = true`) but the preconditions of a place-product submit hold,
`handleProductDrop` does not reject: the external generator is invoked
(the returned flag is `true`), refuting "any call to submit returns the
Busy error immediately and the external generator is not invoked".
-/
theorem busy_submit_counterexample :
    ({ initialState with
        products := [1]
        productFiles := [(1, "productFile")]
        activeProductId := some 1
        sceneImage := some "scene"
        isLoading := true } : AppState).isLoading = true ∧
    (handleProductDrop
        { initialState with
            products := [1]
            productFiles := [(1, "productFile")]
            activeProductId := some 1
            sceneImage := some "scene"
            isLoading := true }
        (0, 0) (Except.ok ⟨"new", "dbg", "prompt"⟩)).2 = true :=
  ⟨rfl, rfl⟩

/--
C4 (amended): The submit handlers themselves do not check the busy flag:
while a mutation is in flight, a submit call whose preconditions hold
still invokes the external generator.  The busy guard exists only
upstream of submission — `handlePlacementRequest` returns the state
unchanged (no context menu, no marker) while busy, and the UI disables
the submission controls.
-/
theorem busy_guard_amended (s : AppState) (h : s.isLoading = true) :
    (∀ a b c d e f : ℚ, handlePlacementRequest s a b c d e f = s) ∧
    (∀ (position : ℚ × ℚ) (gen : Except String GenOut) (pid : Nat) (file scene : String),
      s.activeProductId = some pid →
      s.products.contains pid = true →
      s.productFiles.lookup pid = some file →
      s.sceneImage = some scene →
      (handleProductDrop s position gen).2 = true) := by
  constructor
  · intro a b c d e f
    unfold handlePlacementRequest
    rw [if_pos h]
  · intro position gen pid file scene h1 h2 h3 h4
    cases gen with
    | ok out =>
      rw [handleProductDrop_ok s position out pid file scene h1 h2 h3 h4]
    | error msg =>
      simp only [handleProductDrop, h1, h2, h3, h4, Option.some_bind,
        eq_self_iff_true, if_true]

theorem busy_guard_amended_witness :
    handlePlacementRequest
        { initialState with
            products := [1]
            productFiles := [(1, "productFile")]
            activeProductId := some 1
            sceneImage := some "scene"
            isLoading := true } 1 2 3 4 5 6 =
      { initialState with
          products := [1]
          productFiles := [(1, "productFile")]
          activeProductId := some 1
          sceneImage := some "scene"
          isLoading := true } ∧
    (handleProductDrop
        { initialState with
            products := [1]
            productFiles := [(1, "productFile")]
            activeProductId := some 1
            sceneImage := some "scene"
            isLoading := true }
        (0, 0) (Except.error "boom")).2 = true :=
  ⟨(busy_guard_amended
      { initialState with
          products := [1]
          productFiles := [(1, "productFile")]
          activeProductId := some 1
          sceneImage := some "scene"
          isLoading := true } rfl).1 1 2 3 4 5 6,
   (busy_guard_amended
      { initialState with
          products := [1]
          productFiles := [(1, "productFile")]
          activeProductId := some 1
          sceneImage := some "scene"
          isLoading := true } rfl).2 (0, 0) (Except.error "boom") 1 "productFile" "scene"
      rfl rfl rfl rfl⟩

/--
C8: For every touch drop whose point the coordinate mapper rejects as out
of bounds, the drop is a silent no-op: no placement request is raised (the
context menu and the marker are untouched), no error is surfaced, and the
resulting state differs from the input state only in the drag-indicator
visuals (`isTouchDragging`, `touchGhostPosition`, `isHoveringDropZone`,
`touchOrbPosition`), which are cleared.
-/
theorem oob_drop_silent (s : AppState) (containerRect : Rect) (img : NaturalSize)
    (clientX clientY : ℚ)
    (hdrag : s.isTouchDragging = true)
    (hoob : handlePlacement containerRect img clientX clientY = none) :
    handleTouchEnd s (some (containerRect, img)) clientX clientY =
      { s with isTouchDragging := false
               touchGhostPosition := none
               isHoveringDropZone := false
               touchOrbPosition := none } := by
  simp only [handlePlacement] at hoob
  simp only [handleTouchEnd, hdrag, eq_self_iff_true, not_true, if_false]
  by_cases har : img.naturalWidth / img.naturalHeight >
      containerRect.width / containerRect.height
  · simp only [if_pos har] at hoob ⊢
    split at hoob
    · rename_i hcond
      rw [if_neg (not_not_intro hcond)]
    · simp at hoob
  · simp only [if_neg har] at hoob ⊢
    split at hoob
    · rename_i hcond
      rw [if_neg (not_not_intro hcond)]
    · simp at hoob

theorem oob_drop_silent_witness :
    handleTouchEnd
        { initialState with
            isTouchDragging := true
            touchGhostPosition := some (150, 0)
            isHoveringDropZone := true
            touchOrbPosition := some (150, 0) }
        (some (⟨800, 400, 0, 0⟩, ⟨900, 900⟩)) 150 0 =
      { { initialState with
            isTouchDragging := true
            touchGhostPosition := some (150, 0)
            isHoveringDropZone := true
            touchOrbPosition := some (150, 0) } with
          isTouchDragging := false
          touchGhostPosition := none
          isHoveringDropZone := false
          touchOrbPosition := none } :=
  oob_drop_silent
    { initialState with
        isTouchDragging := true
        touchGhostPosition := some (150, 0)
        isHoveringDropZone := true
        touchOrbPosition := some (150, 0) }
    ⟨800, 400, 0, 0⟩ ⟨900, 900⟩ 150 0 rfl (by norm_num [handlePlacement])

/-! ## The availability flags invariant (C10) -/

/-- The placement-request path does not touch the availability flags. -/
theorem handlePlacementRequest_flags (s : AppState) (a b c d e f : ℚ) :
    (handlePlacementRequest s a b c d e f).canUndo = s.canUndo ∧
    (handlePlacementRequest s a b c d e f).canRedo = s.canRedo := by
  unfold handlePlacementRequest
  split <;> exact ⟨rfl, rfl⟩

/-- The touch-drop path does not touch the availability flags. -/
theorem handleTouchEnd_flags (s : AppState) (dz : Option (Rect × NaturalSize)) (x y : ℚ) :
    (handleTouchEnd s dz x y).canUndo = s.canUndo ∧
    (handleTouchEnd s dz x y).canRedo = s.canRedo := by
  simp only [handleTouchEnd]
  repeat' split
  all_goals simp [handlePlacementRequest_flags, handlePlacementRequest]
  all_goals split <;> simp

/-- Handler `handleUndo` is a no-op when its guard rejects. -/
theorem handleUndo_noop (s : AppState)
    (h : s.undoHistory.length = 0 ∨ s.sceneImage = none) : handleUndo s = s := by
  unfold handleUndo
  rw [if_pos h]

/-- Handler `handleRedo` is a no-op when its guard rejects. -/
theorem handleRedo_noop (s : AppState)
    (h : s.redoHistory.length = 0 ∨ s.sceneImage = none) : handleRedo s = s := by
  unfold handleRedo
  rw [if_pos h]

/--
The exposed availability flags agree with the stacks: `canUndo` holds
exactly when the undo stack is non-empty, `canRedo` exactly when the redo
stack is non-empty.
-/
def flagsOk (s : AppState) : Prop :=
  (s.canUndo = true ↔ s.undoHistory ≠ []) ∧ (s.canRedo = true ↔ s.redoHistory ≠ [])

/--
C10: The availability-flag invariant holds initially and is preserved by
every operation — commit (all three mutation kinds, success or failure),
undo, redo, reset, change-scene, the UI paths, and the persisted-state
load: afterwards `canUndo` equals non-emptiness of the undo stack and
`canRedo` equals non-emptiness of the redo stack.
-/
theorem flags_match_stacks :
    flagsOk initialState ∧
    (∀ (op : Op) (s : AppState), flagsOk s → flagsOk (op.apply s)) ∧
    (∀ (s : AppState) (scene : Option String) (undoH redoH : List String),
      flagsOk s → flagsOk (loadSavedState s scene undoH redoH)) := by
  refine ⟨⟨by simp [initialState], by simp [initialState]⟩, ?_, ?_⟩
  · intro op s h
    cases op with
    | productDrop position gen =>
      simp only [Op.apply, handleProductDrop]
      split
      · split
        · exact ⟨by simp [capPush_ne_nil], by simp⟩
        · exact h
      · exact h
    | sceneDesign gen =>
      simp only [Op.apply, handleSceneDesignGeneration]
      split
      · exact h
      · split
        · exact h
        · split
          · exact ⟨by simp [capPush_ne_nil], by simp⟩
          · exact h
    | surfaceMod v gen =>
      simp only [Op.apply, handleSurfaceModificationSubmit]
      split
      · split
        · exact ⟨by simp [capPush_ne_nil], by simp⟩
        · exact h
      · exact h
    | undo =>
      by_cases hguard : s.undoHistory.length = 0 ∨ s.sceneImage = none
      · rw [Op.apply, handleUndo_noop s hguard]
        exact h
      · push_neg at hguard
        obtain ⟨hlen, hsc⟩ := hguard
        obtain ⟨scene, hscene⟩ := Option.ne_none_iff_exists'.mp hsc
        have hne : s.undoHistory ≠ [] := by
          simpa using List.length_eq_zero.not.mp hlen
        obtain ⟨prev, hprev⟩ :=
          Option.isSome_iff_exists.mp (List.getLast?_isSome.mpr hne)
        rw [Op.apply, handleUndo_spec s prev scene hprev hscene]
        constructor
        · show decide (s.undoHistory.dropLast.length > 0) = true ↔
            s.undoHistory.dropLast ≠ []
          rw [decide_eq_true_iff]
          exact List.length_pos
        · simp
    | redo =>
      by_cases hguard : s.redoHistory.length = 0 ∨ s.sceneImage = none
      · rw [Op.apply, handleRedo_noop s hguard]
        exact h
      · push_neg at hguard
        obtain ⟨hlen, hsc⟩ := hguard
        obtain ⟨scene, hscene⟩ := Option.ne_none_iff_exists'.mp hsc
        have hne : s.redoHistory ≠ [] := by
          simpa using List.length_eq_zero.not.mp hlen
        obtain ⟨next, hnext⟩ :=
          Option.isSome_iff_exists.mp (List.getLast?_isSome.mpr hne)
        rw [Op.apply, handleRedo_spec s next scene hnext hscene]
        constructor
        · simp
        · show decide (s.redoHistory.dropLast.length > 0) = true ↔
            s.redoHistory.dropLast ≠ []
          rw [decide_eq_true_iff]
          exact List.length_pos
    | reset => exact ⟨by simp [Op.apply, handleReset], by simp [Op.apply, handleReset]⟩
    | changeScene =>
      exact ⟨by simp [Op.apply, handleChangeScene], by simp [Op.apply, handleChangeScene]⟩
    | placementRequest a b c d e f =>
      obtain ⟨h1, h2⟩ := handlePlacementRequest_flags s a b c d e f
      obtain ⟨h3, h4⟩ := handlePlacementRequest_undoHistory s a b c d e f,
        handlePlacementRequest_redoHistory s a b c d e f
      exact ⟨by rw [Op.apply, h1, h3]; exact h.1, by rw [Op.apply, h2, h4]; exact h.2⟩
    | touchEnd dz x y =>
      obtain ⟨h1, h2⟩ := handleTouchEnd_flags s dz x y
      refine ⟨?_, ?_⟩
      · rw [Op.apply, h1, handleTouchEnd_undoHistory]
        exact h.1
      · rw [Op.apply, h2, handleTouchEnd_redoHistory]
        exact h.2
  · intro s scene undoH redoH h
    obtain ⟨h1, h2⟩ := h
    unfold flagsOk loadSavedState
    rcases scene with _ | sc <;>
      · simp only
        split <;> split <;> refine ⟨?_, ?_⟩ <;> simp_all [List.length_pos]

theorem flags_match_stacks_witness :
    flagsOk (Op.undo.apply initialState) ∧
    flagsOk (loadSavedState initialState none ["entry"] []) :=
  ⟨flags_match_stacks.2.1 Op.undo initialState flags_match_stacks.1,
   flags_match_stacks.2.2 initialState none ["entry"] [] flags_match_stacks.1⟩

end HomeCanvas
